import Mathlib

/-!
# ClinicalCopilot — shallow embedding and verification

A shallow embedding in Lean 4 of the core of the ClinicalCopilot backend
(`backend/app.py`, `backend/tools.py`, `backend/nodes/symptom_node.py`,
`backend/nodes/planner_node.py`), together with theorems settling the
specification's claims about the pipeline stages, the authorization gate,
and the two append-only record stores.

Conventions of the embedding:
* Python strings become Lean `String`; case folding and substring search are
  defined on the underlying `List Char` (the texts involved are ASCII, where
  Lean's `Char.toLower`/`Char.toUpper` agree with Python's `str.lower`/
  `str.upper`).
* The persisted JSON collections become Lean lists of structures; a missing
  or unparseable file is an `Option` that is `none`.
* Wall-clock time is passed in explicitly (`nowSec : Nat` for the integer
  UNIX timestamp, `nowIso : String` for the ISO rendering).
* External collaborators (the Qdrant search, the face detector, the camera
  frame decoder) are passed in as explicit oracles, mirroring the
  specification's collaborator contracts.
* Code of the repository that is referenced but whose file is not part of
  the source snapshot (`backend/auth.py`, `backend/state.py`,
  `backend/graph.py`, the prescription/safety nodes, and
  `tool_send_to_pharmacy`) is modelled from the specification; each such
  definition carries a doc comment starting with `Modelled from the spec:`.
-/

/-! ## Python string primitives -/

/-- Python's `a or b` for strings: `a` unless `a` is falsy (empty). -/
def pyOrS (a b : String) : String := if a = "" then b else a

/-- Python's `str.lower`, restricted to the ASCII case folding performed by
`Char.toLower` (all phrases and vocabulary entries in the source are ASCII). -/
def strLower (s : String) : String := ⟨s.data.map Char.toLower⟩

/-- Python's `str.upper`, ASCII case folding via `Char.toUpper`. -/
def strUpper (s : String) : String := ⟨s.data.map Char.toUpper⟩

/-- `leadsChars needle hay` is true when `needle` is an initial segment of
`hay`. Helper for substring containment. -/
def leadsChars : List Char → List Char → Bool
  | [], _ => true
  | _ :: _, [] => false
  | a :: as, b :: bs => a == b && leadsChars as bs

/-- Python's `needle in hay` on strings: `needle` occurs contiguously in
`hay` (the empty needle always occurs). -/
def containsChars (needle : List Char) : List Char → Bool
  | [] => needle.isEmpty
  | c :: rest => leadsChars needle (c :: rest) || containsChars needle rest

/-- Python's `needle in hay` lifted to `String`. -/
def containsStr (needle hay : String) : Bool := containsChars needle.data hay.data

/-- The single quote character, used when rendering Python's `repr` of a
string list in audit-log entries. -/
def squote : String := String.singleton (Char.ofNat 39)

/-- Python's `str(list_of_str)` as it appears inside the f-string audit
entries, e.g. `['chest pain', 'fever']`. -/
def pyShowStrList (l : List String) : String :=
  "[" ++ String.intercalate ", " (l.map (fun s => squote ++ s ++ squote)) ++ "]"

/-! ## Keep-first deduplication

Python's `list(dict.fromkeys(xs))` (used by the symptom stage) and the
planner's `if t not in acc: acc.append(t)` loop both keep the first
occurrence of each element, in order.  Both are folds of `pyAppendUnique`. -/

/-- One step of Python's append-if-absent idiom:
`if x not in acc: acc.append(x)`. -/
def pyAppendUnique (acc : List String) (x : String) : List String :=
  if x ∈ acc then acc else acc ++ [x]

/-- Python's `list(dict.fromkeys(l))`: drop duplicates, keeping the first
occurrence of each element, preserving order. -/
def dedupKeepFirst (l : List String) : List String := l.foldl pyAppendUnique []

theorem mem_pyAppendUnique {a x : String} {acc : List String} :
    a ∈ pyAppendUnique acc x ↔ a ∈ acc ∨ a = x := by
  unfold pyAppendUnique
  split
  · rename_i h
    constructor
    · exact fun ha => Or.inl ha
    · rintro (ha | rfl)
      · exact ha
      · exact h
  · simp

theorem mem_foldl_pyAppendUnique {a : String} (l acc : List String) :
    a ∈ l.foldl pyAppendUnique acc ↔ a ∈ acc ∨ a ∈ l := by
  induction l generalizing acc with
  | nil => simp
  | cons x xs ih =>
    simp only [List.foldl_cons, ih, mem_pyAppendUnique, List.mem_cons]
    tauto

theorem nodup_pyAppendUnique {acc : List String} (h : acc.Nodup) (x : String) :
    (pyAppendUnique acc x).Nodup := by
  unfold pyAppendUnique
  split
  · exact h
  · rename_i hx
    simpa [List.nodup_append] using ⟨h, fun hmem => hx hmem⟩

theorem nodup_foldl_pyAppendUnique (l : List String) {acc : List String}
    (h : acc.Nodup) : (l.foldl pyAppendUnique acc).Nodup := by
  induction l generalizing acc with
  | nil => simpa
  | cons x xs ih => exact ih (nodup_pyAppendUnique h x)

theorem foldl_pyAppendUnique_sublist (l acc : List String) :
    (l.foldl pyAppendUnique acc).Sublist (acc ++ l) := by
  induction l generalizing acc with
  | nil => simp
  | cons x xs ih =>
    refine (ih (pyAppendUnique acc x)).trans ?_
    unfold pyAppendUnique
    split
    · exact (List.append_sublist_append_left acc).mpr (List.sublist_cons_self x xs)
    · simp

theorem foldl_pyAppendUnique_of_subset {l acc : List String} (h : l ⊆ acc) :
    l.foldl pyAppendUnique acc = acc := by
  induction l with
  | nil => rfl
  | cons x xs ih =>
    have hx : x ∈ acc := h (List.mem_cons_self x xs)
    have : pyAppendUnique acc x = acc := by simp [pyAppendUnique, hx]
    rw [List.foldl_cons, this]
    exact ih (fun a ha => h (List.mem_cons_of_mem x ha))

theorem foldl_pyAppendUnique_of_nodup {l acc : List String}
    (h : (acc ++ l).Nodup) : l.foldl pyAppendUnique acc = acc ++ l := by
  induction l generalizing acc with
  | nil => simp
  | cons x xs ih =>
    have hx : x ∉ acc := by
      intro hmem
      exact (List.disjoint_of_nodup_append h) hmem (List.mem_cons_self x xs)
    have hstep : pyAppendUnique acc x = acc ++ [x] := by simp [pyAppendUnique, hx]
    rw [List.foldl_cons, hstep, ih (by simpa using h), List.append_assoc]
    rfl

theorem mem_dedupKeepFirst {a : String} (l : List String) :
    a ∈ dedupKeepFirst l ↔ a ∈ l := by
  simp [dedupKeepFirst, mem_foldl_pyAppendUnique]

theorem nodup_dedupKeepFirst (l : List String) : (dedupKeepFirst l).Nodup :=
  nodup_foldl_pyAppendUnique l List.nodup_nil

theorem dedupKeepFirst_sublist (l : List String) :
    (dedupKeepFirst l).Sublist l := by
  simpa using foldl_pyAppendUnique_sublist l []

/-! ## The shared pipeline state -/

/-- One formatted retrieval hit, as produced by `rag_query_tool` in
`backend/tools.py` (`{"title": …, "text": …, "tags": …, "score": …}`).
`title` and `tags` come from `payload.get(...)` and may be absent; `text` is
the snippet body the planner scans (per the collaborator contract
`retrieve(query, k) -> sequence of {text, source, score}` it is present).
The similarity `score` is carried opaquely (no arithmetic is performed on
it anywhere in the embedded code); it is embedded as an `Int`. -/
structure Hit where
  title : Option String
  text : String
  tags : Option String
  score : Int
deriving Repr, DecidableEq

/-- Modelled from the spec: the `ConsultationState` record of §3 (the
pydantic `AgentState` of `backend/state.py`, which is not part of the source
snapshot; its field names are those used by the node code in
`backend/nodes/`). `executed_actions` entries are carried as opaque
strings. -/
structure AgentState where
  patient_id : String := ""
  raw_transcript : String := ""
  note_summary : String := ""
  symptoms : List String := []
  suggested_tests : List String := []
  guideline_hits : List Hit := []
  draft_prescription : String := ""
  safety_flags : List String := []
  executed_actions : List String := []
  audit_log : List String := []
deriving Repr, DecidableEq

/-! ## Symptom-Extraction stage (`backend/nodes/symptom_node.py`) -/

/-- The `SYMPTOM_KEYWORDS` table: phrase → canonical symptom label, in the
source's (insertion) order, which is the iteration order of a Python dict. -/
def SYMPTOM_KEYWORDS : List (String × String) := [
  ("chest pain", "chest pain"),
  ("heaviness in chest", "chest pain"),
  ("tightness in chest", "chest pain"),
  ("pressure in chest", "chest pain"),
  ("shortness of breath", "shortness of breath"),
  ("breathlessness", "shortness of breath"),
  ("breathless", "shortness of breath"),
  ("difficulty breathing", "shortness of breath"),
  ("fever", "fever"),
  ("high temperature", "fever"),
  ("raised temperature", "fever"),
  ("cough", "cough"),
  ("coughing", "cough"),
  ("headache", "headache"),
  ("pain in head", "headache"),
  ("migraine", "headache"),
  ("vomiting", "vomiting"),
  ("vomit", "vomiting"),
  ("threw up", "vomiting"),
  ("nausea", "vomiting"),
  ("feeling like vomiting", "vomiting"),
  ("abdominal pain", "abdominal pain"),
  ("stomach pain", "abdominal pain"),
  ("pain in stomach", "abdominal pain"),
  ("tummy pain", "abdominal pain"),
  ("gastric pain", "abdominal pain"),
  ("diabetes", "diabetes"),
  ("type 2 diabetes", "diabetes"),
  ("type ii diabetes", "diabetes"),
  ("high blood sugar", "diabetes"),
  ("sugar patient", "diabetes"),
  ("hypertension", "hypertension"),
  ("high blood pressure", "hypertension"),
  ("bp is high", "hypertension")]

/-- The nine canonical symptom labels of the fixed phrase table (the values
of `SYMPTOM_KEYWORDS`, as enumerated in the module docstring of
`symptom_node.py`). -/
def CANONICAL_SYMPTOMS : List String :=
  ["chest pain", "shortness of breath", "fever", "cough", "headache",
   "vomiting", "abdominal pain", "diabetes", "hypertension"]

/-- The working text of the symptom stage:
`(state.note_summary or state.raw_transcript or "").lower()`. -/
def symptomText (s : AgentState) : String :=
  strLower (pyOrS s.note_summary (pyOrS s.raw_transcript ""))

/-- The `found` list of `symptom_node`: one canonical label appended per
table entry whose phrase occurs in the working text, in table order. -/
def symptomFound (s : AgentState) : List String :=
  (SYMPTOM_KEYWORDS.filter (fun kv => containsStr kv.1 (symptomText s))).map
    Prod.snd

/-- `symptom_node` of `backend/nodes/symptom_node.py`: scan the phrase
table against the lowercased working text, merge the canonical labels found
with the existing symptoms via `list(dict.fromkeys(...))`, and append one
audit entry. -/
def symptom_node (s : AgentState) : AgentState :=
  let merged := dedupKeepFirst (s.symptoms ++ symptomFound s)
  { s with
    symptoms := merged
    audit_log := s.audit_log ++
      ["Symptom node: extracted symptoms " ++ pyShowStrList merged ++ "."] }

example : symptomFound { raw_transcript := "Heavy COUGH and fever." } =
    ["fever", "cough"] := by decide

example : (symptom_node { raw_transcript := "chest pain, tightness in chest" }).symptoms =
    ["chest pain"] := by decide

/-! ## Retrieval tool (`rag_query_tool` in `backend/tools.py`) -/

/-- The payload stored on a Qdrant point, as read by `rag_query_tool`
(`payload.get("title"/"text"/"tags")`); `text` is present per the
collaborator contract, `title` and `tags` may be absent. -/
structure QdrantPayload where
  title : Option String
  text : String
  tags : Option String
deriving Repr, DecidableEq

/-- A raw scored search result (`r.payload`, `r.score`); the float score is
carried opaquely as an `Int`. -/
structure ScoredPoint where
  payload : QdrantPayload
  score : Int
deriving Repr, DecidableEq

/-- The external embedding+search collaborator: one oracle covering
`_embed_model.encode` followed by `_qdrant_client.search`.  `.error`
models any internal exception (and the legacy-client path that returns
no results). -/
abbrev SearchOracle := String → Nat → Except Unit (List ScoredPoint)

/-- `rag_query_tool` of `backend/tools.py`: run the search inside a
`try`/`except`; on any failure return `[]`; on success format each result
as `{"title": …, "text": …, "tags": …, "score": …}`. -/
def rag_query_tool (search : SearchOracle) (query : String)
    (top_k : Nat := 3) : List Hit :=
  match search query top_k with
  | .error _ => []
  | .ok results =>
      results.map (fun r => ⟨r.payload.title, r.payload.text, r.payload.tags, r.score⟩)

/-! ## Planning stage (`backend/nodes/planner_node.py`) -/

/-- The fixed test vocabulary scanned by the planner:
`["cbc", "ecg", "urine", "lipid"]`. -/
def TEST_CANDIDATES : List String := ["cbc", "ecg", "urine", "lipid"]

/-- The retrieval query built by `planner_node`:
`f"Suggest initial basic tests for patient with: {symptoms_text}. Note: {note}"`
with `symptoms_text = ", ".join(symptoms)` when the list is non-empty and
`"unspecified symptoms"` otherwise, and
`note = note_summary or raw_transcript or "no symptoms text"`. -/
def planner_query (s : AgentState) : String :=
  let note := pyOrS s.note_summary (pyOrS s.raw_transcript "no symptoms text")
  let symptoms_text :=
    if s.symptoms = [] then "unspecified symptoms"
    else String.intercalate ", " s.symptoms
  "Suggest initial basic tests for patient with: " ++ symptoms_text ++
    ". Note: " ++ note

/-- The planner's inner loop over one hit: for each candidate token, if it
occurs in the lowercased snippet text and its upper-case form is not yet
collected, append the upper-case form. -/
def plannerScanHit (acc : List String) (h : Hit) : List String :=
  let text := strLower h.text
  TEST_CANDIDATES.foldl
    (fun acc2 candidate =>
      if containsStr candidate text ∧ strUpper candidate ∉ acc2
      then acc2 ++ [strUpper candidate] else acc2) acc

/-- `planner_node` of `backend/nodes/planner_node.py`: query the retriever
(top 3), scan the hits for test tokens, replace `guideline_hits` and
`suggested_tests`, and append one audit entry. -/
def planner_node (search : SearchOracle) (s : AgentState) : AgentState :=
  let hits := rag_query_tool search (planner_query s) 3
  let suggested := hits.foldl plannerScanHit []
  { s with
    guideline_hits := hits
    suggested_tests := suggested
    audit_log := s.audit_log ++
      ["Planner node: suggested tests " ++ pyShowStrList suggested ++ "."] }

/-- The tokens of the vocabulary matched by one hit, canonical upper-case,
in vocabulary order (the specification-side description of the scan). -/
def hitMatchedTests (h : Hit) : List String :=
  (TEST_CANDIDATES.filter (fun c => containsStr c (strLower h.text))).map strUpper

theorem scan_loop_eq_foldl (text : String) (l acc : List String) :
    l.foldl
      (fun acc2 candidate =>
        if containsStr candidate text ∧ strUpper candidate ∉ acc2
        then acc2 ++ [strUpper candidate] else acc2) acc =
      ((l.filter (fun c => containsStr c text)).map strUpper).foldl
        pyAppendUnique acc := by
  induction l generalizing acc with
  | nil => rfl
  | cons c cs ih =>
    simp only [List.foldl_cons, List.filter_cons]
    by_cases hc : containsStr c text = true
    · have hbody : (if containsStr c text ∧ strUpper c ∉ acc
          then acc ++ [strUpper c] else acc) = pyAppendUnique acc (strUpper c) := by
        by_cases hm : strUpper c ∈ acc
        · rw [if_neg (fun hand => hand.2 hm), pyAppendUnique, if_pos hm]
        · rw [if_pos ⟨hc, hm⟩, pyAppendUnique, if_neg hm]
      rw [hbody, if_pos hc, List.map_cons, List.foldl_cons, ih]
    · have hbody : (if containsStr c text ∧ strUpper c ∉ acc
          then acc ++ [strUpper c] else acc) = acc := by
        rw [if_neg (fun hand => hc hand.1)]
      rw [hbody, if_neg hc, ih]

theorem plannerScanHit_eq_foldl (acc : List String) (h : Hit) :
    plannerScanHit acc h = (hitMatchedTests h).foldl pyAppendUnique acc := by
  unfold plannerScanHit hitMatchedTests
  exact scan_loop_eq_foldl (strLower h.text) TEST_CANDIDATES acc

theorem foldl_plannerScanHit_eq (hits : List Hit) (acc : List String) :
    hits.foldl plannerScanHit acc =
      ((hits.map hitMatchedTests).flatten).foldl pyAppendUnique acc := by
  induction hits generalizing acc with
  | nil => rfl
  | cons h hs ih =>
    simp only [List.foldl_cons, plannerScanHit_eq_foldl, List.map_cons,
      List.flatten_cons, List.foldl_append, ih]

/-- The suggested tests of one planner run equal the keep-first
deduplication of the per-hit matched tokens, concatenated in hit order. -/
theorem planner_suggested_eq_dedup (search : SearchOracle) (s : AgentState) :
    (planner_node search s).suggested_tests =
      dedupKeepFirst ((rag_query_tool search (planner_query s) 3).map
        hitMatchedTests).flatten := by
  simp only [planner_node, dedupKeepFirst, foldl_plannerScanHit_eq]

/-! ## Claims about the two pure stages -/

/-- C3: for every state whose working text contains a known symptom phrase,
after the Symptom-Extraction stage the symptoms sequence contains the
corresponding canonical label exactly once, no matter how often the phrase
(or several phrases with the same canonical label) occurs; the merge with
the pre-existing symptoms keeps the prior relative order (it is a sublist
of `prior ++ found`) and drops duplicates. -/
theorem C3_symptom_canonical_exactly_once (s : AgentState)
    (phrase canonical : String)
    (hkv : (phrase, canonical) ∈ SYMPTOM_KEYWORDS)
    (hocc : containsStr phrase (symptomText s) = true) :
    List.count canonical (symptom_node s).symptoms = 1 ∧
    (symptom_node s).symptoms.Nodup ∧
    (symptom_node s).symptoms.Sublist (s.symptoms ++ symptomFound s) ∧
    (∀ x, x ∈ (symptom_node s).symptoms ↔
      x ∈ s.symptoms ∨ x ∈ symptomFound s) := by
  have hsym : (symptom_node s).symptoms =
      dedupKeepFirst (s.symptoms ++ symptomFound s) := rfl
  have hfound : canonical ∈ symptomFound s := by
    unfold symptomFound
    exact List.mem_map.mpr ⟨(phrase, canonical),
      List.mem_filter.mpr ⟨hkv, hocc⟩, rfl⟩
  have hnodup := nodup_dedupKeepFirst (s.symptoms ++ symptomFound s)
  have hmem : canonical ∈ dedupKeepFirst (s.symptoms ++ symptomFound s) :=
    (mem_dedupKeepFirst _).mpr (List.mem_append.mpr (Or.inr hfound))
  refine ⟨?_, ?_, ?_, ?_⟩
  · rw [hsym]; exact List.count_eq_one_of_mem hnodup hmem
  · rw [hsym]; exact hnodup
  · rw [hsym]; exact dedupKeepFirst_sublist _
  · intro x; rw [hsym, mem_dedupKeepFirst, List.mem_append]

theorem C3_symptom_canonical_exactly_once_witness :
    ("fever", "fever") ∈ SYMPTOM_KEYWORDS ∧
    containsStr "fever"
      (symptomText { raw_transcript := "Fever, fever and high fever" }) = true ∧
    List.count "fever"
      (symptom_node { raw_transcript := "Fever, fever and high fever" }).symptoms = 1 :=
  ⟨by decide, by decide,
    (C3_symptom_canonical_exactly_once
      { raw_transcript := "Fever, fever and high fever" } "fever" "fever"
      (by decide) (by decide)).1⟩

/-- C9: the Symptom-Extraction and Planning stages leave `patient_id`,
`raw_transcript` and `note_summary` unchanged, and also leave every field
other than `symptoms`, `suggested_tests`, `guideline_hits` and `audit_log`
unchanged. -/
theorem C9_stage_frame (search : SearchOracle) (s : AgentState) :
    (symptom_node s).patient_id = s.patient_id ∧
    (symptom_node s).raw_transcript = s.raw_transcript ∧
    (symptom_node s).note_summary = s.note_summary ∧
    (symptom_node s).suggested_tests = s.suggested_tests ∧
    (symptom_node s).guideline_hits = s.guideline_hits ∧
    (symptom_node s).draft_prescription = s.draft_prescription ∧
    (symptom_node s).safety_flags = s.safety_flags ∧
    (symptom_node s).executed_actions = s.executed_actions ∧
    (planner_node search s).patient_id = s.patient_id ∧
    (planner_node search s).raw_transcript = s.raw_transcript ∧
    (planner_node search s).note_summary = s.note_summary ∧
    (planner_node search s).symptoms = s.symptoms ∧
    (planner_node search s).draft_prescription = s.draft_prescription ∧
    (planner_node search s).safety_flags = s.safety_flags ∧
    (planner_node search s).executed_actions = s.executed_actions :=
  ⟨rfl, rfl, rfl, rfl, rfl, rfl, rfl, rfl, rfl, rfl, rfl, rfl, rfl, rfl, rfl⟩

/-- C10: after the Planning stage every suggested test is one of exactly
`CBC`, `ECG`, `URINE`, `LIPID`, with no duplicates, hence at most four
entries; after the Symptom-Extraction stage every symptom is either an
input symptom or one of the nine canonical labels; for every input state
and every retrieval oracle. -/
theorem C10_stage_invariants (search : SearchOracle) (s : AgentState) :
    (∀ x ∈ (planner_node search s).suggested_tests,
      x ∈ ["CBC", "ECG", "URINE", "LIPID"]) ∧
    (planner_node search s).suggested_tests.Nodup ∧
    (planner_node search s).suggested_tests.length ≤ 4 ∧
    (∀ x ∈ (symptom_node s).symptoms,
      x ∈ s.symptoms ∨ x ∈ CANONICAL_SYMPTOMS) := by
  have hvocab : ∀ c ∈ TEST_CANDIDATES, strUpper c ∈ ["CBC", "ECG", "URINE", "LIPID"] := by
    decide
  have hsub : ∀ x ∈ (planner_node search s).suggested_tests,
      x ∈ ["CBC", "ECG", "URINE", "LIPID"] := by
    intro x hx
    rw [planner_suggested_eq_dedup, mem_dedupKeepFirst] at hx
    obtain ⟨l, hl, hxl⟩ := List.mem_flatten.mp hx
    obtain ⟨h, _, rfl⟩ := List.mem_map.mp hl
    obtain ⟨c, hc, rfl⟩ := List.mem_map.mp hxl
    exact hvocab c (List.mem_of_mem_filter hc)
  have hnodup : (planner_node search s).suggested_tests.Nodup := by
    rw [planner_suggested_eq_dedup]; exact nodup_dedupKeepFirst _
  refine ⟨hsub, hnodup, ?_, ?_⟩
  · have h1 : (planner_node search s).suggested_tests.toFinset ⊆
        (["CBC", "ECG", "URINE", "LIPID"] : List String).toFinset := by
      intro x hx
      exact List.mem_toFinset.mpr (hsub x (List.mem_toFinset.mp hx))
    calc (planner_node search s).suggested_tests.length
        = (planner_node search s).suggested_tests.toFinset.card :=
          (List.toFinset_card_of_nodup hnodup).symm
      _ ≤ (["CBC", "ECG", "URINE", "LIPID"] : List String).toFinset.card :=
          Finset.card_le_card h1
      _ ≤ (["CBC", "ECG", "URINE", "LIPID"] : List String).length :=
          List.toFinset_card_le _
      _ ≤ 4 := by decide
  · have hcanon : ∀ kv ∈ SYMPTOM_KEYWORDS, kv.2 ∈ CANONICAL_SYMPTOMS := by decide
    intro x hx
    have : x ∈ s.symptoms ∨ x ∈ symptomFound s := by
      have hsym : (symptom_node s).symptoms =
          dedupKeepFirst (s.symptoms ++ symptomFound s) := rfl
      rw [hsym, mem_dedupKeepFirst, List.mem_append] at hx
      exact hx
    rcases this with h | h
    · exact Or.inl h
    · refine Or.inr ?_
      obtain ⟨kv, hkv, rfl⟩ := List.mem_map.mp h
      exact hcanon kv (List.mem_of_mem_filter hkv)

/-- C7: the planner queries the retriever with the query built from the
symptom list (substituting `unspecified symptoms` when empty) plus the
working note text, requests the top 3 snippets, and its suggested tests are
exactly the keep-first deduplication of the canonical upper-case forms of
the vocabulary tokens found (case-insensitively, as substrings) in each
snippet's text, in first-occurrence order. -/
theorem C7_planner_query_and_scan (search : SearchOracle) (s : AgentState) :
    (planner_node search s).guideline_hits =
      rag_query_tool search (planner_query s) 3 ∧
    (s.symptoms = [] → planner_query s =
      "Suggest initial basic tests for patient with: unspecified symptoms" ++
        ". Note: " ++ pyOrS s.note_summary (pyOrS s.raw_transcript "no symptoms text")) ∧
    (s.symptoms ≠ [] → planner_query s =
      "Suggest initial basic tests for patient with: " ++
        String.intercalate ", " s.symptoms ++
        ". Note: " ++ pyOrS s.note_summary (pyOrS s.raw_transcript "no symptoms text")) ∧
    (planner_node search s).suggested_tests =
      dedupKeepFirst ((rag_query_tool search (planner_query s) 3).map
        hitMatchedTests).flatten := by
  refine ⟨rfl, ?_, ?_, planner_suggested_eq_dedup search s⟩
  · intro h; simp only [planner_query, h, if_true]; rfl
  · intro h; simp only [planner_query, h, if_neg h]; rfl

theorem C7_planner_query_and_scan_witness :
    planner_query { patient_id := "P1" } =
      "Suggest initial basic tests for patient with: unspecified symptoms" ++
        ". Note: " ++ pyOrS "" (pyOrS "" "no symptoms text") :=
  (C7_planner_query_and_scan (fun _ _ => Except.error ())
    { patient_id := "P1" }).2.1 rfl

/-- C6: when the retrieval collaborator fails (the search oracle reports an
internal exception for the planner's query), the retrieval call returns the
empty list rather than raising, and the planner then sets both
`suggested_tests` and `guideline_hits` to empty, appends its audit entry,
and returns the state. -/
theorem C6_planner_degrades_on_retrieval_failure (search : SearchOracle)
    (s : AgentState)
    (hfail : search (planner_query s) 3 = Except.error ()) :
    rag_query_tool search (planner_query s) 3 = [] ∧
    (planner_node search s).suggested_tests = [] ∧
    (planner_node search s).guideline_hits = [] ∧
    (planner_node search s).audit_log =
      s.audit_log ++ ["Planner node: suggested tests []."] := by
  have hrag : rag_query_tool search (planner_query s) 3 = [] := by
    unfold rag_query_tool; rw [hfail]
  have hshow : pyShowStrList [] = "[]" := by decide
  refine ⟨hrag, ?_, ?_, ?_⟩
  · show (rag_query_tool search (planner_query s) 3).foldl plannerScanHit [] = []
    rw [hrag]; rfl
  · show rag_query_tool search (planner_query s) 3 = []
    exact hrag
  · show s.audit_log ++ ["Planner node: suggested tests " ++
        pyShowStrList ((rag_query_tool search (planner_query s) 3).foldl
          plannerScanHit []) ++ "."] =
      s.audit_log ++ ["Planner node: suggested tests []."]
    rw [hrag]
    rfl

theorem C6_planner_degrades_on_retrieval_failure_witness :
    rag_query_tool (fun _ _ => Except.error ())
      (planner_query { patient_id := "P1", raw_transcript := "chest pain" }) 3 = [] ∧
    (planner_node (fun _ _ => Except.error ())
      { patient_id := "P1", raw_transcript := "chest pain" }).suggested_tests = [] :=
  ⟨(C6_planner_degrades_on_retrieval_failure (fun _ _ => Except.error ())
      { patient_id := "P1", raw_transcript := "chest pain" } rfl).1,
   (C6_planner_degrades_on_retrieval_failure (fun _ _ => Except.error ())
      { patient_id := "P1", raw_transcript := "chest pain" } rfl).2.1⟩

/-! ## Authorization Gate (`backend/auth.py`, not in the source snapshot) -/

/-- Modelled from the spec: the Authorization Gate's process-wide session
mapping `patient_id -> verified` of §3/§4.7 (`backend/auth.py` is not in
the source snapshot), embedded as the list of identities currently marked
verified; every identity not in the list maps to `false`. -/
abbrev AuthSession := List String

/-- Modelled from the spec: `authorize_patient` of `backend/auth.py` —
unconditionally mark `patient_id` as verified (§4.7). -/
def authorize_patient (auth : AuthSession) (patient_id : String) : AuthSession :=
  if patient_id ∈ auth then auth else patient_id :: auth

/-- Modelled from the spec: `is_patient_authorized` of `backend/auth.py` —
pure lookup, defaulting to `false` for unknown identities (§4.7). -/
def is_patient_authorized (auth : AuthSession) (patient_id : String) : Bool :=
  patient_id ∈ auth

theorem is_patient_authorized_authorize (auth : AuthSession) (pid : String) :
    is_patient_authorized (authorize_patient auth pid) pid = true := by
  unfold authorize_patient is_patient_authorized
  split
  · rename_i h; exact decide_eq_true h
  · simp

/-! ## Record identifiers and decimal rendering -/

/-- The `k` low-order decimal digits of `n` as characters, most significant
first (digit `j` of `n` is `n / 10 ^ j % 10`). -/
def padDigits : Nat → Nat → List Char
  | 0, _ => []
  | k + 1, n => Nat.digitChar (n / 10 ^ k % 10) :: padDigits k n

/-- Little-endian decimal digits of `n`, with explicit fuel so that the
recursion is structural (the fuel `n` always suffices since `n / 10 < n`
for `n > 0`). -/
def decDigitsAux : Nat → Nat → List Char
  | 0, _ => []
  | fuel + 1, n =>
      if n = 0 then [] else Nat.digitChar (n % 10) :: decDigitsAux fuel (n / 10)

/-- Python's `str(n)` for a natural number: its decimal digits. -/
def decDigits (n : Nat) : List Char :=
  if n = 0 then ['0'] else (decDigitsAux n n).reverse

/-- Python's `str(n)` as a `String`. -/
def decStr (n : Nat) : String := ⟨decDigits n⟩

/-- Python's `f"{n:05d}"`: the decimal digits of `n` left-padded with `0`
to width at least 5.  For `n < 100000` this is exactly the five low-order
decimal digits; for larger `n` it is the plain decimal rendering. -/
def pad5 (n : Nat) : String :=
  if n < 100000 then ⟨padDigits 5 n⟩ else decStr n

example : pad5 7 = "00007" := by decide

example : pad5 99999 = "99999" ∧ pad5 100000 = "100000" := by decide

example : decStr 1700000000 = "1700000000" := by decide

/-- Display (code-point lexicographic) order on identifiers — the `<` of
Python `str` and of Lean `String` alike — stated on the underlying
character lists. -/
def displayLt (a b : String) : Prop := a.data < b.data

instance (a b : String) : Decidable (displayLt a b) :=
  inferInstanceAs (Decidable (a.data < b.data))

/-! ## The EMR and Pharmacy record stores (`backend/app.py`,
`backend/tools.py`) -/

/-- A record of the EMR store (`emr_store.json`).  A JSON object is
embedded as a structure of optional fields covering every key written or
read by the embedded code; a key absent from the object is `none`. -/
structure EMRRecord where
  emr_record_id : Option String := none
  record_type : Option String := none
  patient_id : Option String := none
  timestamp_utc : Option String := none
  timestamp : Option String := none
  note_summary : Option String := none
  symptoms : List String := []
  suggested_tests : List String := []
  draft_prescription : Option String := none
  approved_by_doctor : Option Bool := none
deriving Repr, DecidableEq

/-- A record of the Pharmacy store (`pharmacy_orders.json`). -/
structure PharmacyOrder where
  order_id : Option String := none
  patient_id : Option String := none
  timestamp_utc : Option String := none
  prescription : Option String := none
  emr_record_id : Option String := none
  suggested_tests : List String := []
  symptoms : List String := []
deriving Repr, DecidableEq

/-- The HTTP error raised by `HTTPException(status_code=…, detail=…)`. -/
structure HTTPErr where
  status_code : Nat
  detail : String
deriving Repr, DecidableEq

/-- The request body of `POST /approve-emr` (`ApproveEMRRequest` in
`backend/app.py`). -/
structure ApproveEMRRequest where
  patient_id : String
  note_summary : String
  symptoms : List String
  suggested_tests : List String
  draft_prescription : String
deriving Repr, DecidableEq

/-- The request body of `POST /send-to-pharmacy` (`PharmacySendRequest` in
`backend/app.py`). -/
structure PharmacySendRequest where
  patient_id : String
  prescription : String
  emr_record_id : Option String := none
  suggested_tests : List String := []
  symptoms : List String := []
deriving Repr, DecidableEq

/-- Modelled from the spec: `EMRUpdatePayload` of `backend/schemas.py`
(not in the source snapshot) — the record-without-id fields of §3/§4.8: a
patient identifier plus the clinical payload, with no store-assigned
identifier or timestamp. -/
structure EMRUpdatePayload where
  patient_id : Option String := none
  note_summary : Option String := none
  symptoms : List String := []
  suggested_tests : List String := []
  draft_prescription : Option String := none
deriving Repr, DecidableEq

/-- The dict returned by `tool_update_emr`
(`{"action": …, "status": …, "emr_record_id": …}`). -/
structure EMRToolResult where
  action : String
  status : String
  emr_record_id : String
deriving Repr, DecidableEq

/-- The identifier `approve_emr` assigns when the store currently holds
`count` records: `f"EMR_APPROVED_{len(records) + 1:05d}"`. -/
def approveEmrRecordId (count : Nat) : String :=
  "EMR_APPROVED_" ++ pad5 (count + 1)

/-- `tool_update_emr` of `backend/tools.py`: build the record
`{"emr_record_id": f"EMR-{int(datetime.utcnow().timestamp())}",
"timestamp_utc": …, **payload}`, load the existing collection (a missing or
unparseable file reads as `[]`), append, write the whole collection back,
and return `{"action": "update_emr", "status": "success_mock",
"emr_record_id": …}`.  The integer UNIX timestamp is `nowSec`. -/
def tool_update_emr (payload : EMRUpdatePayload)
    (stored : Option (List EMRRecord)) (nowSec : Nat) (nowIso : String) :
    EMRToolResult × List EMRRecord :=
  let rid := "EMR-" ++ decStr nowSec
  let record : EMRRecord := {
    emr_record_id := some rid
    timestamp_utc := some nowIso
    patient_id := payload.patient_id
    note_summary := payload.note_summary
    symptoms := payload.symptoms
    suggested_tests := payload.suggested_tests
    draft_prescription := payload.draft_prescription }
  let records := stored.getD []
  (⟨"update_emr", "success_mock", rid⟩, records ++ [record])

/-- `emr_update` (`POST /emr-update` in `backend/app.py`): hand the payload
straight to `tool_update_emr`.  Note: this handler consults no
authorization state. -/
def emr_update (payload : EMRUpdatePayload)
    (stored : Option (List EMRRecord)) (nowSec : Nat) (nowIso : String) :
    EMRToolResult × List EMRRecord :=
  tool_update_emr payload stored nowSec nowIso

/-- `approve_emr` (`POST /approve-emr` in `backend/app.py`): refuse with a
403 unless the patient is authorized; otherwise load the store (missing or
unparseable reads as `[]`), assign `EMR_APPROVED_{count+1:05d}`, append the
approved record and persist the collection, returning the new id. -/
def approve_emr (auth : AuthSession) (req : ApproveEMRRequest)
    (stored : Option (List EMRRecord)) (nowIso : String) :
    Except HTTPErr (String × List EMRRecord) :=
  if is_patient_authorized auth req.patient_id = false then
    Except.error ⟨403, "Patient face not verified. EMR is locked for this patient."⟩
  else
    let records := stored.getD []
    let rid := approveEmrRecordId records.length
    let record : EMRRecord := {
      emr_record_id := some rid
      record_type := some "approved_consultation"
      patient_id := some req.patient_id
      timestamp_utc := some nowIso
      note_summary := some req.note_summary
      symptoms := req.symptoms
      suggested_tests := req.suggested_tests
      draft_prescription := some req.draft_prescription
      approved_by_doctor := some true }
    Except.ok (rid, records ++ [record])

/-- Modelled from the spec: `tool_send_to_pharmacy` of `backend/tools.py`
(not in the source snapshot).  Per §4.8 it appends a pharmacy order with a
store-assigned sequential identifier (store prefix plus zero-padded
`count + 1`), stamps the UTC timestamp, persists the whole collection, and
returns the order id and timestamp. -/
def tool_send_to_pharmacy (patient_id prescription : String)
    (emr_record_id : Option String) (suggested_tests symptoms : List String)
    (stored : Option (List PharmacyOrder)) (nowIso : String) :
    String × String × List PharmacyOrder :=
  let records := stored.getD []
  let oid := "PHARM_" ++ pad5 (records.length + 1)
  (oid, nowIso, records ++ [{
    order_id := some oid
    patient_id := some patient_id
    timestamp_utc := some nowIso
    prescription := some prescription
    emr_record_id := emr_record_id
    suggested_tests := suggested_tests
    symptoms := symptoms }])

/-- `send_to_pharmacy` (`POST /send-to-pharmacy` in `backend/app.py`):
refuse with a 403 unless the patient is authorized; otherwise persist an
order via `tool_send_to_pharmacy` and return its id and timestamp. -/
def send_to_pharmacy (auth : AuthSession) (req : PharmacySendRequest)
    (stored : Option (List PharmacyOrder)) (nowIso : String) :
    Except HTTPErr (String × String × List PharmacyOrder) :=
  if is_patient_authorized auth req.patient_id = false then
    Except.error ⟨403, "Patient face not verified. Pharmacy actions are locked for this patient."⟩
  else
    Except.ok (tool_send_to_pharmacy req.patient_id req.prescription
      req.emr_record_id req.suggested_tests req.symptoms stored nowIso)

/-! ## Face verification (`POST /verify-patient-face` in `backend/app.py`) -/

/-- What the handler observes about a successfully decoded frame: whether
the Haar cascade file loaded, and how many faces `detectMultiScale`
reported. -/
structure FrameInfo where
  cascadeLoaded : Bool
  facesDetected : Nat
deriving Repr, DecidableEq

/-- The JSON body returned by `verify_patient_face`. -/
structure VerifyResponse where
  authorized : Bool
  reason : String
deriving Repr, DecidableEq

/-- `verify_patient_face` (`POST /verify-patient-face` in
`backend/app.py`): an undecodable frame (`cv2.imdecode` returned `None`,
embedded as `decoded = none`) yields `authorized = false` without touching
the session; every decodable frame — cascade file missing, zero faces
(demo override), or at least one face — calls `authorize_patient` and
yields `authorized = true`. -/
def verify_patient_face (decoded : Option FrameInfo) (auth : AuthSession)
    (patient_id : String) : VerifyResponse × AuthSession :=
  match decoded with
  | none => (⟨false, "Failed to decode image."⟩, auth)
  | some info =>
      if info.cascadeLoaded = false then
        (⟨true, "Cascade missing, demo mode: auto-authorized patient."⟩,
          authorize_patient auth patient_id)
      else if info.facesDetected = 0 then
        (⟨true, "No clear face detected, but demo override: patient authorized."⟩,
          authorize_patient auth patient_id)
      else
        (⟨true, "Face detected and patient authorized."⟩,
          authorize_patient auth patient_id)

/-- C8: every uploaded frame that decodes marks the patient authorized and
reports `authorized = true`, whether or not a face was detected and whether
or not the detector loaded; only a frame that fails to decode yields
`authorized = false`, and it leaves the session unchanged. -/
theorem C8_face_verification_fail_open (decoded : Option FrameInfo)
    (auth : AuthSession) (pid : String) :
    (∀ info, decoded = some info →
      (verify_patient_face decoded auth pid).1.authorized = true ∧
      is_patient_authorized (verify_patient_face decoded auth pid).2 pid = true) ∧
    (decoded = none →
      (verify_patient_face decoded auth pid).1.authorized = false ∧
      (verify_patient_face decoded auth pid).2 = auth) := by
  constructor
  · rintro ⟨c, f⟩ rfl
    cases c with
    | false => exact ⟨rfl, is_patient_authorized_authorize auth pid⟩
    | true =>
      cases f with
      | zero => exact ⟨rfl, is_patient_authorized_authorize auth pid⟩
      | succ k => exact ⟨rfl, is_patient_authorized_authorize auth pid⟩
  · rintro rfl
    exact ⟨rfl, rfl⟩

theorem C8_face_verification_fail_open_witness :
    (verify_patient_face (some ⟨true, 0⟩) [] "P1").1.authorized = true ∧
    is_patient_authorized (verify_patient_face (some ⟨true, 0⟩) [] "P1").2 "P1" = true :=
  (C8_face_verification_fail_open (some ⟨true, 0⟩) [] "P1").1 ⟨true, 0⟩ rfl

/-! ## C1: which boundary writes consult the Authorization Gate -/

/-- C1 counterexample: the claim asserts every store-writing boundary
operation — including `emr-update` — refuses with a permission error for an
unauthorized identity.  But `emr_update` performs its append regardless:
with an empty session (so `is_patient_authorized` is `false` for `PX`) the
`emr-update` append still succeeds and persists a record. -/
theorem C1_counterexample_emr_update_unguarded :
    is_patient_authorized [] "PX" = false ∧
    (emr_update { patient_id := some "PX" } none 1700000000
      "2023-11-14T22:13:20Z").1.status = "success_mock" ∧
    (emr_update { patient_id := some "PX" } none 1700000000
      "2023-11-14T22:13:20Z").2.length = 1 :=
  ⟨rfl, rfl, rfl⟩

/-- C1 (amended): appends via `approve-emr` and `send-to-pharmacy` are
refused with an explicit 403 permission error while
`isAuthorized(patient_id)` is false, and after `authorize(id)` the same
append succeeds and persists one record; the `emr-update` path, however,
performs its append unconditionally, consulting no authorization state. -/
theorem C1_amended_authorization_gate (auth : AuthSession)
    (reqA : ApproveEMRRequest) (reqP : PharmacySendRequest)
    (payload : EMRUpdatePayload)
    (storedE : Option (List EMRRecord)) (storedP : Option (List PharmacyOrder))
    (nowSec : Nat) (nowIso : String)
    (hA : is_patient_authorized auth reqA.patient_id = false)
    (hP : is_patient_authorized auth reqP.patient_id = false) :
    approve_emr auth reqA storedE nowIso =
      Except.error ⟨403, "Patient face not verified. EMR is locked for this patient."⟩ ∧
    send_to_pharmacy auth reqP storedP nowIso =
      Except.error ⟨403, "Patient face not verified. Pharmacy actions are locked for this patient."⟩ ∧
    (∃ rid newStore,
      approve_emr (authorize_patient auth reqA.patient_id) reqA storedE nowIso =
        Except.ok (rid, newStore) ∧
      newStore.length = (storedE.getD []).length + 1) ∧
    (∃ oid ts newStore,
      send_to_pharmacy (authorize_patient auth reqP.patient_id) reqP storedP nowIso =
        Except.ok (oid, ts, newStore) ∧
      newStore.length = (storedP.getD []).length + 1) ∧
    (emr_update payload storedE nowSec nowIso).1.status = "success_mock" ∧
    (emr_update payload storedE nowSec nowIso).2.length =
      (storedE.getD []).length + 1 := by
  refine ⟨?_, ?_, ?_, ?_, rfl, ?_⟩
  · unfold approve_emr; rw [hA]; rfl
  · unfold send_to_pharmacy; rw [hP]; rfl
  · unfold approve_emr
    rw [is_patient_authorized_authorize,
      if_neg (by decide : ¬ (true = false))]
    exact ⟨_, _, rfl, by simp⟩
  · unfold send_to_pharmacy
    rw [is_patient_authorized_authorize,
      if_neg (by decide : ¬ (true = false))]
    exact ⟨_, _, _, rfl, by simp [tool_send_to_pharmacy]⟩
  · simp [emr_update, tool_update_emr]

theorem C1_amended_authorization_gate_witness :
    is_patient_authorized [] "P1" = false ∧
    approve_emr [] ⟨"P1", "note", [], [], "rx"⟩ none "2024-01-01T00:00:00Z" =
      Except.error ⟨403, "Patient face not verified. EMR is locked for this patient."⟩ ∧
    (∃ rid newStore,
      approve_emr (authorize_patient [] "P1") ⟨"P1", "note", [], [], "rx"⟩ none
          "2024-01-01T00:00:00Z" = Except.ok (rid, newStore) ∧
      newStore.length = ((none : Option (List EMRRecord)).getD []).length + 1) :=
  ⟨by decide,
   (C1_amended_authorization_gate [] ⟨"P1", "note", [], [], "rx"⟩
      ⟨"P1", "rx", none, [], []⟩ {} none none 0 "2024-01-01T00:00:00Z"
      (by decide) (by decide)).1,
   (C1_amended_authorization_gate [] ⟨"P1", "note", [], [], "rx"⟩
      ⟨"P1", "rx", none, [], []⟩ {} none none 0 "2024-01-01T00:00:00Z"
      (by decide) (by decide)).2.2.1⟩

/-! ## C2: display order of store-assigned record identifiers -/

theorem digitChar_strict_mono :
    ∀ a < 10, ∀ b < 10, a < b → Nat.digitChar a < Nat.digitChar b := by decide

theorem padDigits_congr (k : Nat) :
    ∀ m n, m % 10 ^ k = n % 10 ^ k → padDigits k m = padDigits k n := by
  induction k with
  | zero => intro m n _; rfl
  | succ k ih =>
    intro m n h
    have hd : (10 : Nat) ^ k ∣ 10 ^ (k + 1) := pow_dvd_pow 10 (Nat.le_succ k)
    have htail : m % 10 ^ k = n % 10 ^ k := by
      rw [← Nat.mod_mod_of_dvd m hd, ← Nat.mod_mod_of_dvd n hd, h]
    have hhead : m / 10 ^ k % 10 = n / 10 ^ k % 10 := by
      calc m / 10 ^ k % 10 = m % (10 ^ k * 10) / 10 ^ k :=
            (Nat.mod_mul_right_div_self m (10 ^ k) 10).symm
        _ = m % 10 ^ (k + 1) / 10 ^ k := by rw [← pow_succ]
        _ = n % 10 ^ (k + 1) / 10 ^ k := by rw [h]
        _ = n % (10 ^ k * 10) / 10 ^ k := by rw [pow_succ]
        _ = n / 10 ^ k % 10 := Nat.mod_mul_right_div_self n (10 ^ k) 10
    show Nat.digitChar (m / 10 ^ k % 10) :: padDigits k m =
      Nat.digitChar (n / 10 ^ k % 10) :: padDigits k n
    rw [hhead, ih m n htail]

theorem padDigits_lt (k : Nat) :
    ∀ m n, m < n → n < 10 ^ k → padDigits k m < padDigits k n := by
  induction k with
  | zero =>
    intro m n hmn hn
    exact absurd hmn (by omega)
  | succ k ih =>
    intro m n hmn hn
    have h10 : (0 : Nat) < 10 ^ k := Nat.pos_pow_of_pos k (by norm_num)
    have hle : m / 10 ^ k ≤ n / 10 ^ k := Nat.div_le_div_right (Nat.le_of_lt hmn)
    have hnA : n / 10 ^ k < 10 := by
      rw [Nat.div_lt_iff_lt_mul h10]
      calc n < 10 ^ (k + 1) := hn
        _ = 10 * 10 ^ k := by ring
    have hmA : m / 10 ^ k < 10 := lt_of_le_of_lt hle hnA
    show Nat.digitChar (m / 10 ^ k % 10) :: padDigits k m <
      Nat.digitChar (n / 10 ^ k % 10) :: padDigits k n
    rcases lt_or_eq_of_le hle with hlt | heq
    · apply List.Lex.rel
      rw [Nat.mod_eq_of_lt hmA, Nat.mod_eq_of_lt hnA]
      exact digitChar_strict_mono _ hmA _ hnA hlt
    · have hmod : m % 10 ^ k < n % 10 ^ k := by
        have h1 := Nat.div_add_mod m (10 ^ k)
        have h2 := Nat.div_add_mod n (10 ^ k)
        rw [heq] at h1
        omega
      have hrec := ih (m % 10 ^ k) (n % 10 ^ k) hmod (Nat.mod_lt _ h10)
      rw [padDigits_congr k (m % 10 ^ k) m (Nat.mod_mod_of_dvd m dvd_rfl),
        padDigits_congr k (n % 10 ^ k) n (Nat.mod_mod_of_dvd n dvd_rfl)] at hrec
      have hheads : Nat.digitChar (m / 10 ^ k % 10) =
          Nat.digitChar (n / 10 ^ k % 10) := by rw [heq]
      rw [hheads]
      exact List.Lex.cons hrec

theorem charList_lt_irrefl : ∀ l : List Char, ¬ l < l := by
  intro l
  induction l with
  | nil => intro h; cases h
  | cons c cs ih =>
    intro h
    cases h with
    | cons hrest => exact ih hrest
    | rel hc => exact lt_irrefl c hc

theorem charList_lt_append_left (p : List Char) {l1 l2 : List Char}
    (h : l1 < l2) : p ++ l1 < p ++ l2 := by
  induction p with
  | nil => exact h
  | cons c cs ih =>
    show c :: (cs ++ l1) < c :: (cs ++ l2)
    exact List.Lex.cons ih

/-- For counts whose successor stays below 100000 the zero-padded
sequence-number identifiers of `approve_emr` grow strictly in display
order. -/
theorem approveEmrRecordId_lt {m n : Nat} (hmn : m < n) (hn : n < 99999) :
    displayLt (approveEmrRecordId m) (approveEmrRecordId n) := by
  have hm5 : m + 1 < 100000 := by omega
  have hn5 : n + 1 < 100000 := by omega
  have hpadm : pad5 (m + 1) = ⟨padDigits 5 (m + 1)⟩ := by
    unfold pad5; rw [if_pos hm5]
  have hpadn : pad5 (n + 1) = ⟨padDigits 5 (n + 1)⟩ := by
    unfold pad5; rw [if_pos hn5]
  show (approveEmrRecordId m).data < (approveEmrRecordId n).data
  unfold approveEmrRecordId
  rw [hpadm, hpadn, String.data_append, String.data_append]
  exact charList_lt_append_left _
    (padDigits_lt 5 (m + 1) (n + 1) (by omega) (by simpa using hn5))

/-- C2 counterexample: the claim as stated fails on both its parts.
First, `tool_update_emr` does not use the count-based scheme at all: two
successive appends to the EMR store in the same second (same integer UNIX
timestamp) return the same `emr_record_id`, so successive appends can
return equal ids.  Second, even for `approve_emr`'s zero-padded scheme the
new id is not strictly greater in display order once the count passes the
pad width: with 99999 records the assigned id `EMR_APPROVED_100000` sorts
below the previous `EMR_APPROVED_99999`. -/
theorem C2_counterexample_duplicate_and_padding :
    (tool_update_emr {} (some (tool_update_emr {} none 1700000000
        "2023-11-14T22:13:20Z").2) 1700000000
        "2023-11-14T22:13:20Z").1.emr_record_id =
      (tool_update_emr {} none 1700000000
        "2023-11-14T22:13:20Z").1.emr_record_id ∧
    ¬ displayLt (approveEmrRecordId 99998) (approveEmrRecordId 99999) ∧
    approveEmrRecordId 99998 = "EMR_APPROVED_99999" ∧
    approveEmrRecordId 99999 = "EMR_APPROVED_100000" :=
  ⟨rfl, by decide, by decide, by decide⟩

/-- C2 (amended): `approve_emr` assigns `EMR_APPROVED_` plus the
zero-padded (width 5) sequence number `count + 1`; as long as the new
sequence number stays below 100000, the identifier is strictly greater in
display order than the identifier assigned at any smaller count, so
successive `approve_emr` appends return distinct, display-increasing ids.
`tool_update_emr`, the other append path into the EMR store, instead
assigns the timestamp-based id `EMR-<unix-seconds>`, so two successive
appends within the same second return equal record ids. -/
theorem C2_amended_record_id_order (m n : Nat) (hmn : m < n) (hn : n < 99999)
    (payload1 payload2 : EMRUpdatePayload) (stored : Option (List EMRRecord))
    (nowSec : Nat) (nowIso : String) :
    approveEmrRecordId m = "EMR_APPROVED_" ++ pad5 (m + 1) ∧
    displayLt (approveEmrRecordId m) (approveEmrRecordId n) ∧
    approveEmrRecordId m ≠ approveEmrRecordId n ∧
    (tool_update_emr payload1 stored nowSec nowIso).1.emr_record_id =
      "EMR-" ++ decStr nowSec ∧
    (tool_update_emr payload2
        (some (tool_update_emr payload1 stored nowSec nowIso).2)
        nowSec nowIso).1.emr_record_id =
      (tool_update_emr payload1 stored nowSec nowIso).1.emr_record_id := by
  have hlt := approveEmrRecordId_lt hmn hn
  refine ⟨rfl, hlt, ?_, rfl, rfl⟩
  intro he
  rw [he] at hlt
  exact charList_lt_irrefl (approveEmrRecordId n).data hlt

theorem C2_amended_record_id_order_witness :
    displayLt (approveEmrRecordId 3) (approveEmrRecordId 7) ∧
    approveEmrRecordId 3 ≠ approveEmrRecordId 7 :=
  ⟨(C2_amended_record_id_order 3 7 (by decide) (by decide) {} {} none 0 "t").2.1,
   (C2_amended_record_id_order 3 7 (by decide) (by decide) {} {} none 0 "t").2.2.1⟩

/-! ## C5: store queries (`get_emr`, `get_pharmacy_orders` in
`backend/app.py`) -/

/-- Boolean code-point lexicographic `≤` on character lists — the ordering
Python uses when comparing the (string) sort keys. -/
def charListLeb : List Char → List Char → Bool
  | [], _ => true
  | _ :: _, [] => false
  | a :: as, b :: bs =>
      if a < b then true else if b < a then false else charListLeb as bs

/-- Python's `a <= b` on strings. -/
def strLeb (a b : String) : Bool := charListLeb a.data b.data

theorem charListLeb_total : ∀ a b : List Char,
    (charListLeb a b || charListLeb b a) = true := by
  intro a
  induction a with
  | nil => intro b; simp [charListLeb]
  | cons x xs ih =>
    intro b
    cases b with
    | nil => simp [charListLeb]
    | cons y ys =>
      simp only [charListLeb]
      by_cases hxy : x < y
      · simp [hxy]
      · by_cases hyx : y < x
        · simp [hxy, hyx]
        · have hx : x = y := le_antisymm (not_lt.mp hyx) (not_lt.mp hxy)
          subst hx
          simpa [lt_irrefl] using ih ys

theorem charListLeb_trans : ∀ a b c : List Char,
    charListLeb a b = true → charListLeb b c = true →
    charListLeb a c = true := by
  intro a
  induction a with
  | nil => intro b c _ _; rfl
  | cons x xs ih =>
    intro b c hab hbc
    cases b with
    | nil => simp [charListLeb] at hab
    | cons y ys =>
      cases c with
      | nil => simp [charListLeb] at hbc
      | cons z zs =>
        simp only [charListLeb] at hab hbc ⊢
        by_cases hxy : x < y
        · by_cases hyz : y < z
          · simp [lt_trans hxy hyz]
          · by_cases hzy : z < y
            · simp [hyz, hzy] at hbc
            · have hyz_eq : y = z :=
                le_antisymm (not_lt.mp hzy) (not_lt.mp hyz)
              subst hyz_eq
              simp [hxy]
        · by_cases hyx : y < x
          · simp [hxy, hyx] at hab
          · have hxy_eq : x = y :=
              le_antisymm (not_lt.mp hyx) (not_lt.mp hxy)
            subst hxy_eq
            simp only [lt_irrefl, if_false] at hab hbc ⊢
            by_cases hxz : x < z
            · simp [hxz]
            · by_cases hzx : z < x
              · simp [hxz, hzx] at hbc
              · have hxz_eq : x = z :=
                  le_antisymm (not_lt.mp hzx) (not_lt.mp hxz)
                subst hxz_eq
                simp only [lt_irrefl, if_false] at hab hbc ⊢
                exact ih ys zs hab hbc

theorem strLeb_total (a b : String) : (strLeb a b || strLeb b a) = true :=
  charListLeb_total a.data b.data

theorem strLeb_trans {a b c : String} (h1 : strLeb a b = true)
    (h2 : strLeb b c = true) : strLeb a c = true :=
  charListLeb_trans a.data b.data c.data h1 h2

/-- The sort key of `get_emr`:
`r.get("timestamp_utc") or r.get("timestamp") or ""` (an absent key reads
as `None`, which like the empty string is falsy). -/
def emrTs (r : EMRRecord) : String :=
  pyOrS (r.timestamp_utc.getD "") (pyOrS (r.timestamp.getD "") "")

/-- The sort key of `get_pharmacy_orders`: `r.get("timestamp_utc") or ""`. -/
def pharmacyTs (r : PharmacyOrder) : String :=
  pyOrS (r.timestamp_utc.getD "") ""

/-- `get_emr` (`GET /get-emr` in `backend/app.py`): load the collection (a
missing or unparseable file reads as `[]`), keep the records whose
`patient_id` equals the argument, and stably sort them by timestamp key
descending (Python's `list.sort(key=…, reverse=True)`). -/
def get_emr (stored : Option (List EMRRecord)) (patient_id : String) :
    List EMRRecord :=
  ((stored.getD []).filter (fun r => r.patient_id == some patient_id)).mergeSort
    (fun a b => strLeb (emrTs b) (emrTs a))

/-- `get_pharmacy_orders` (`GET /get-pharmacy-orders` in
`backend/app.py`): same filter-and-sort over the pharmacy store. -/
def get_pharmacy_orders (stored : Option (List PharmacyOrder))
    (patient_id : String) : List PharmacyOrder :=
  ((stored.getD []).filter (fun r => r.patient_id == some patient_id)).mergeSort
    (fun a b => strLeb (pharmacyTs b) (pharmacyTs a))

/-- C5: for every store contents and every patient id, the store queries
return only records whose `patient_id` equals the argument, sorted by
timestamp non-increasing, and return the empty sequence — never an error —
when the persisted collection is missing/unparseable (`none`) or empty. -/
theorem C5_store_queries_filter_and_sort
    (storedE : Option (List EMRRecord)) (storedP : Option (List PharmacyOrder))
    (pid : String) :
    (∀ r ∈ get_emr storedE pid, r.patient_id = some pid) ∧
    (get_emr storedE pid).Pairwise
      (fun a b => strLeb (emrTs b) (emrTs a) = true) ∧
    (storedE = none → get_emr storedE pid = []) ∧
    (storedE = some [] → get_emr storedE pid = []) ∧
    (∀ r ∈ get_pharmacy_orders storedP pid, r.patient_id = some pid) ∧
    (get_pharmacy_orders storedP pid).Pairwise
      (fun a b => strLeb (pharmacyTs b) (pharmacyTs a) = true) ∧
    (storedP = none → get_pharmacy_orders storedP pid = []) ∧
    (storedP = some [] → get_pharmacy_orders storedP pid = []) := by
  refine ⟨?_, ?_, ?_, ?_, ?_, ?_, ?_, ?_⟩
  · intro r hr
    have hmem : r ∈ (storedE.getD []).filter
        (fun r => r.patient_id == some pid) :=
      (List.mergeSort_perm _ _).mem_iff.mp hr
    have := List.of_mem_filter hmem
    exact eq_of_beq this
  · exact @List.sorted_mergeSort EMRRecord
      (fun a b => strLeb (emrTs b) (emrTs a))
      (fun a b c hab hbc => strLeb_trans hbc hab)
      (fun a b => strLeb_total (emrTs b) (emrTs a)) _
  · rintro rfl; simp [get_emr]
  · rintro rfl; simp [get_emr]
  · intro r hr
    have hmem : r ∈ (storedP.getD []).filter
        (fun r => r.patient_id == some pid) :=
      (List.mergeSort_perm _ _).mem_iff.mp hr
    have := List.of_mem_filter hmem
    exact eq_of_beq this
  · exact @List.sorted_mergeSort PharmacyOrder
      (fun a b => strLeb (pharmacyTs b) (pharmacyTs a))
      (fun a b c hab hbc => strLeb_trans hbc hab)
      (fun a b => strLeb_total (pharmacyTs b) (pharmacyTs a)) _
  · rintro rfl; simp [get_pharmacy_orders]
  · rintro rfl; simp [get_pharmacy_orders]

theorem C5_store_queries_filter_and_sort_witness :
    get_emr (none : Option (List EMRRecord)) "P1" = [] ∧
    get_pharmacy_orders (some []) "P1" = [] :=
  ⟨(C5_store_queries_filter_and_sort none (some []) "P1").2.2.1 rfl,
   (C5_store_queries_filter_and_sort none (some []) "P1").2.2.2.2.2.2.2 rfl⟩

/-! ## C4: the full stage chain run twice -/

/-- Modelled from the spec: the Prescription-Drafting stage (§4.4; its node
file is not in the source snapshot).  It deterministically templates a
free-text draft from `symptoms` and `suggested_tests`, sets
`draft_prescription` (replacing any previous draft), never fails, and
appends one audit entry. -/
def prescription_node (s : AgentState) : AgentState :=
  let draft := "Plan for symptoms " ++ String.intercalate ", " s.symptoms ++
    " with tests " ++ String.intercalate ", " s.suggested_tests
  { s with
    draft_prescription := draft
    audit_log := s.audit_log ++ ["Prescription node: drafted prescription."] }

/-- Modelled from the spec: the fixed pattern-based rule set of the
Safety-Check stage (§4.5), a deterministic function of the symptom list and
the draft prescription text producing zero or more advisory warnings. -/
def safetyRules (symptoms : List String) (draft : String) : List String :=
  (if "chest pain" ∈ symptoms ∧ containsStr "aspirin" (strLower draft)
    then ["Review antiplatelet use in suspected cardiac presentation."]
    else []) ++
  (if "diabetes" ∈ symptoms
    then ["Check renal function before prescribing metformin."] else [])

/-- Modelled from the spec: the Safety-Check stage (§4.5; its node file is
not in the source snapshot).  It appends the warnings of the fixed rule set
to `safety_flags` — advisory only, never blocking — and appends one audit
entry. -/
def safety_node (s : AgentState) : AgentState :=
  let flags := safetyRules s.symptoms s.draft_prescription
  { s with
    safety_flags := s.safety_flags ++ flags
    audit_log := s.audit_log ++
      ["Safety node: raised flags " ++ pyShowStrList flags ++ "."] }

/-- Modelled from the spec: `run_initial_workflow` of `backend/graph.py`
(not in the source snapshot) — the Orchestrator's fixed stage chain of
§4.1: Symptom-Extraction → Planning → Prescription-Drafting →
Safety-Check. -/
def run_initial_workflow (search : SearchOracle) (s : AgentState) : AgentState :=
  safety_node (prescription_node (planner_node search (symptom_node s)))

theorem dedupKeepFirst_append_absorb {a f : List String} (ha : a.Nodup)
    (hf : f ⊆ a) : dedupKeepFirst (a ++ f) = a := by
  unfold dedupKeepFirst
  rw [List.foldl_append]
  have h1 : a.foldl pyAppendUnique [] = a := by
    have h := foldl_pyAppendUnique_of_nodup
      (show (([] : List String) ++ a).Nodup by simpa using ha)
    simpa using h
  rw [h1]
  exact foldl_pyAppendUnique_of_subset hf

theorem planner_query_congr {s1 s2 : AgentState}
    (hsym : s1.symptoms = s2.symptoms)
    (hnote : s1.note_summary = s2.note_summary)
    (hraw : s1.raw_transcript = s2.raw_transcript) :
    planner_query s1 = planner_query s2 := by
  unfold planner_query
  rw [hsym, hnote, hraw]

/-- C4: with a fresh audit log, running the stage chain a second time on
the resulting state yields the same `suggested_tests` (the planner replaces
rather than accumulates) while the audit log is exactly twice as long;
every stage appends exactly one audit entry per run on every state (so a
run adds exactly four entries), and `symptoms` are non-decreasing across
the two runs. -/
theorem C4_second_run_same_tests_audit_doubles (search : SearchOracle)
    (s : AgentState) (h0 : s.audit_log = []) :
    (run_initial_workflow search (run_initial_workflow search s)).suggested_tests =
      (run_initial_workflow search s).suggested_tests ∧
    (run_initial_workflow search (run_initial_workflow search s)).audit_log.length =
      2 * (run_initial_workflow search s).audit_log.length ∧
    (∀ x ∈ (run_initial_workflow search s).symptoms,
      x ∈ (run_initial_workflow search (run_initial_workflow search s)).symptoms) ∧
    (∀ t : AgentState,
      (symptom_node t).audit_log.length = t.audit_log.length + 1 ∧
      (planner_node search t).audit_log.length = t.audit_log.length + 1 ∧
      (prescription_node t).audit_log.length = t.audit_log.length + 1 ∧
      (safety_node t).audit_log.length = t.audit_log.length + 1) ∧
    (∀ t : AgentState, (run_initial_workflow search t).audit_log.length =
      t.audit_log.length + 4) := by
  have hstage : ∀ t : AgentState,
      (symptom_node t).audit_log.length = t.audit_log.length + 1 ∧
      (planner_node search t).audit_log.length = t.audit_log.length + 1 ∧
      (prescription_node t).audit_log.length = t.audit_log.length + 1 ∧
      (safety_node t).audit_log.length = t.audit_log.length + 1 := by
    intro t
    refine ⟨?_, ?_, ?_, ?_⟩ <;>
      simp [symptom_node, planner_node, prescription_node, safety_node]
  have hrun : ∀ t : AgentState,
      (run_initial_workflow search t).audit_log.length =
        t.audit_log.length + 4 := by
    intro t
    unfold run_initial_workflow
    rw [(hstage _).2.2.2, (hstage _).2.2.1, (hstage _).2.1, (hstage _).1]
  set r1 := run_initial_workflow search s with hr1
  have hsym1 : r1.symptoms = dedupKeepFirst (s.symptoms ++ symptomFound s) := rfl
  have hfound1 : symptomFound r1 = symptomFound s := rfl
  have hsub : symptomFound r1 ⊆ r1.symptoms := by
    rw [hfound1, hsym1]
    intro x hx
    exact (mem_dedupKeepFirst _).mpr (List.mem_append.mpr (Or.inr hx))
  have hnodup1 : r1.symptoms.Nodup := by
    rw [hsym1]; exact nodup_dedupKeepFirst _
  have hsecond : (symptom_node r1).symptoms = r1.symptoms := by
    show dedupKeepFirst (r1.symptoms ++ symptomFound r1) = r1.symptoms
    exact dedupKeepFirst_append_absorb hnodup1 hsub
  have hsym_eq : (symptom_node r1).symptoms = (symptom_node s).symptoms := by
    rw [hsecond, hsym1]; rfl
  have hquery : planner_query (symptom_node r1) = planner_query (symptom_node s) :=
    planner_query_congr hsym_eq rfl rfl
  have htests : (run_initial_workflow search r1).suggested_tests =
      r1.suggested_tests := by
    show (planner_node search (symptom_node r1)).suggested_tests =
      (planner_node search (symptom_node s)).suggested_tests
    show (rag_query_tool search (planner_query (symptom_node r1)) 3).foldl
        plannerScanHit [] =
      (rag_query_tool search (planner_query (symptom_node s)) 3).foldl
        plannerScanHit []
    rw [hquery]
  refine ⟨htests, ?_, ?_, hstage, hrun⟩
  · rw [hrun r1, hrun s, h0]
    simp
  · intro x hx
    have hsame : (run_initial_workflow search r1).symptoms = r1.symptoms := by
      show (symptom_node r1).symptoms = r1.symptoms
      exact hsecond
    rw [hsame]
    exact hx

theorem C4_second_run_same_tests_audit_doubles_witness :
    (run_initial_workflow (fun _ _ => Except.error ())
        (run_initial_workflow (fun _ _ => Except.error ())
          { patient_id := "P1", raw_transcript := "chest pain",
            note_summary := "chest pain" })).suggested_tests =
      (run_initial_workflow (fun _ _ => Except.error ())
        { patient_id := "P1", raw_transcript := "chest pain",
          note_summary := "chest pain" }).suggested_tests ∧
    (run_initial_workflow (fun _ _ => Except.error ())
        (run_initial_workflow (fun _ _ => Except.error ())
          { patient_id := "P1", raw_transcript := "chest pain",
            note_summary := "chest pain" })).audit_log.length =
      2 * (run_initial_workflow (fun _ _ => Except.error ())
        { patient_id := "P1", raw_transcript := "chest pain",
          note_summary := "chest pain" }).audit_log.length :=
  ⟨(C4_second_run_same_tests_audit_doubles (fun _ _ => Except.error ())
      { patient_id := "P1", raw_transcript := "chest pain",
        note_summary := "chest pain" } rfl).1,
   (C4_second_run_same_tests_audit_doubles (fun _ _ => Except.error ())
      { patient_id := "P1", raw_transcript := "chest pain",
        note_summary := "chest pain" } rfl).2.1⟩

theorem C10_stage_invariants_witness :
    "fever" ∈ ({ raw_transcript := "fever" } : AgentState).symptoms ∨
      "fever" ∈ CANONICAL_SYMPTOMS :=
  (C10_stage_invariants (fun _ _ => Except.error ())
    { raw_transcript := "fever" }).2.2.2 "fever" (by decide)
